import Mathlib

/-!
Verification development for the gdb remote-serial-protocol stub of the
`rd` record-and-replay tracer (`src/gdb_connection.rs`).

The stub's state (`GdbConnection`), its request vocabulary and its reply
operations are shallowly embedded below.  Byte buffers are `List Nat`
(one entry per byte, always < 256 in practice), machine integers are
`Int`/`Nat` with explicit two's-complement reduction where the Rust code
formats them, and the socket is modelled by a list of pending
`write(2)` outcomes (`wio`) plus the log of bytes actually delivered
(`sent`).
-/

/-- Bytes of an ASCII string literal, used for the protocol text the Rust
code writes with `write!`. -/
def strBytes (s : String) : List Nat :=
  s.data.map Char.toNat

/-- ASCII code of one lowercase hex digit, as produced by Rust `{:x}`
formatting (0-9 then a-f). -/
def hexDigitByte (d : Nat) : Nat :=
  if d < 10 then 48 + d else 87 + d

/-- Little-endian hex digits of `n`, fuel-driven so it reduces by `rfl`.
`fuel ≥ n` suffices. -/
def hexLEAux : Nat → Nat → List Nat
  | 0, _ => []
  | _ + 1, 0 => []
  | fuel + 1, n + 1 => hexDigitByte ((n + 1) % 16) :: hexLEAux fuel ((n + 1) / 16)

/-- Rust `{:0wx}` lowercase hex formatting of a natural number: minimal
digits, left-padded with `'0'` to width `w` (`w = 1` models plain `{:x}`,
`w = 2` models `{:02x}`). -/
def fmtHexPad (w : Nat) (n : Nat) : List Nat :=
  let ds := (hexLEAux n n).reverse
  let ds := if ds = [] then [48] else ds
  List.replicate (w - ds.length) 48 ++ ds

/-- Little-endian decimal digits of `n`, fuel-driven. -/
def decLEAux : Nat → Nat → List Nat
  | 0, _ => []
  | _ + 1, 0 => []
  | fuel + 1, n + 1 => (48 + (n + 1) % 10) :: decLEAux fuel ((n + 1) / 10)

/-- Rust `{}` (`Display`) formatting of a `usize`: decimal digits. -/
def fmtDec (n : Nat) : List Nat :=
  let ds := (decLEAux n n).reverse
  if ds = [] then [48] else ds

/-- Two's-complement reinterpretation of an `i32` as a `u32`, which is what
Rust `{:x}`/`{:02x}` formatting of an `i32` prints. -/
def u32OfI32 (i : Int) : Nat :=
  (i % 4294967296).toNat

/-- Rust `{:02x}` formatting of an `i32` (pids, tids, signal numbers). -/
def fmtHex2I (i : Int) : List Nat :=
  fmtHexPad 2 (u32OfI32 i)

/-- Rust `{:x}` formatting of an `i32`. -/
def fmtHexI (i : Int) : List Nat :=
  fmtHexPad 1 (u32OfI32 i)

/-- `u8::overflowing_add` checksum over payload bytes, as computed by
`write_packet_bytes`. -/
def checksum (data : List Nat) : Nat :=
  data.foldl (fun a b => (a + b) % 256) 0

/-- The bytes `write_packet_bytes` appends to the outbound buffer:
`'$' payload '#' hh` with `hh` the two lowercase hex digits of the
checksum. -/
def packetBytes (data : List Nat) : List Nat :=
  [36] ++ data ++ [35] ++ fmtHexPad 2 (checksum data)

/-- One byte of the gdb binary-escape encoding used by
`write_binary_packet`: `#`, `$`, `}`, `*` are written as `'\x7d' (b XOR 0x20)`. -/
def escByte (b : Nat) : List Nat :=
  if b = 35 ∨ b = 36 ∨ b = 125 ∨ b = 42 then [125, b ^^^ 32] else [b]

/-- Binary-escape a payload, as `write_binary_packet` does for its `data`
argument (the prefix is not escaped). -/
def escapeBytes (data : List Nat) : List Nat :=
  (data.map escByte).flatten

/-- `RunDirection` from `replay_timeline.rs`. -/
inductive RunDirection
  | RunForward
  | RunBackward
deriving DecidableEq

/-- `Default for RunDirection` picks `RunForward`. -/
def RunDirection.dflt : RunDirection := RunDirection.RunForward

/-- `GdbThreadId` from `gdb_connection.rs`: a (pid, tid) pair of `pid_t`
(signed 32-bit) values. -/
structure GdbThreadId where
  pid : Int
  tid : Int
deriving DecidableEq

/-- The `ANY` sentinel thread id `(0, 0)`. -/
def GdbThreadId.ANY : GdbThreadId := ⟨0, 0⟩

/-- The `ALL` sentinel thread id `(-1, -1)`. -/
def GdbThreadId.ALL : GdbThreadId := ⟨-1, -1⟩

/-- `Default for GdbThreadId` is `(-1, -1)`. -/
def GdbThreadId.dflt : GdbThreadId := ⟨-1, -1⟩

/-- Modelled from the spec: `crate::sig::Sig` is not under `src/`.  The
source comment in `gdb_connection.rs` ("rr allows a 0 signal.  We represent
that by Option<Sig> where None becomes the 0 signal") shows that a `Sig`
is a host signal number that is never 0; `as_raw` returns the raw `i32`. -/
abbrev Sig := { n : Int // n ≠ 0 }

/-- `Sig::as_raw`. -/
def Sig.as_raw (s : Sig) : Int := s.val

/-- `GdbRegisterValueData` from `gdb_connection.rs` (scalar widths carried
as plain naturals; the opaque array case carries its bytes). -/
inductive GdbRegisterValueData
  | Value (v : List Nat)
  | Value1 (v : Nat)
  | Value2 (v : Nat)
  | Value4 (v : Nat)
  | Value8 (v : Nat)
deriving DecidableEq

/-- `GdbRegisterValue`.  The register-name enumeration (`crate::gdb_register`)
is not under `src/`; names are modelled as naturals. -/
structure GdbRegisterValue where
  name : Nat
  value : GdbRegisterValueData
  defined : Bool
  size : Nat
deriving DecidableEq

/-- `Default for GdbRegisterValue` (name 0, `Value8 0`, undefined, size 0). -/
def GdbRegisterValue.dflt : GdbRegisterValue :=
  ⟨0, GdbRegisterValueData.Value8 0, false, 0⟩

/-- Modelled from the spec: the request-kind constants come from the
generated bindings file (`gdb_request_bindings_generated.rs`), which is not
under `src/`.  The spec's §3 request vocabulary gives the closed
enumeration; only the kinds are needed, not their numeric values. -/
inductive GdbRequestType
  | DREQ_NONE
  | DREQ_GET_CURRENT_THREAD
  | DREQ_GET_OFFSETS
  | DREQ_GET_REGS
  | DREQ_GET_STOP_REASON
  | DREQ_GET_THREAD_LIST
  | DREQ_INTERRUPT
  | DREQ_DETACH
  | DREQ_GET_AUXV
  | DREQ_GET_EXEC_FILE
  | DREQ_GET_IS_THREAD_ALIVE
  | DREQ_GET_THREAD_EXTRA_INFO
  | DREQ_SET_CONTINUE_THREAD
  | DREQ_SET_QUERY_THREAD
  | DREQ_TLS
  | DREQ_GET_MEM
  | DREQ_SET_MEM
  | DREQ_SEARCH_MEM
  | DREQ_GET_REG
  | DREQ_SET_REG
  | DREQ_WATCH
  | DREQ_READ_SIGINFO
  | DREQ_WRITE_SIGINFO
  | DREQ_RESTART
  | DREQ_CONT
  | DREQ_RD_CMD
  | DREQ_QSYMBOL
  | DREQ_FILE_SETFS
  | DREQ_FILE_OPEN
  | DREQ_FILE_PREAD
  | DREQ_FILE_CLOSE
deriving DecidableEq

/-- `GdbActionType`. -/
inductive GdbActionType
  | ActionContinue
  | ActionStep
deriving DecidableEq

/-- `GdbContAction`: a resume action (continue/step, target, optional
signal where `None` is the 0 signal). -/
structure GdbContAction where
  type_ : GdbActionType
  target : GdbThreadId
  maybe_signal_to_deliver : Option Sig
deriving DecidableEq

/-- `GdbRestartType`. -/
inductive GdbRestartType
  | RestartFromPrevious
  | RestartFromEvent
  | RestartFromCheckpoint
deriving DecidableEq

/-- `gdb_request::Mem`. -/
structure GdbReqMem where
  addr : Nat
  len : Nat
  data : List Nat
deriving DecidableEq

/-- `gdb_request::Watch`. -/
structure GdbReqWatch where
  addr : Nat
  kind : Int
  conditions : List (List Nat)
deriving DecidableEq

/-- `gdb_request::Restart` (`param_str` is an OS string, modelled as bytes). -/
structure GdbReqRestart where
  param : Int
  param_str : List Nat
  type_ : GdbRestartType
deriving DecidableEq

/-- `gdb_request::Cont`. -/
structure GdbReqCont where
  run_direction : RunDirection
  actions : List GdbContAction
deriving DecidableEq

/-- `Default for gdb_request::Cont`. -/
def GdbReqCont.dflt : GdbReqCont := ⟨RunDirection.RunForward, []⟩

/-- `gdb_request::Tls` (`load_module` is a remote address; `RemotePtr` is
not under `src/` and is modelled as the address value). -/
structure GdbReqTls where
  offset : Nat
  load_module : Nat
deriving DecidableEq

/-- `gdb_request::Symbol`. -/
structure GdbReqSymbol where
  has_address : Bool
  address : Nat
  name : List Nat
deriving DecidableEq

/-- `gdb_request::FileSetfs`. -/
structure GdbReqFileSetfs where
  pid : Int
deriving DecidableEq

/-- `gdb_request::FileOpen`. -/
structure GdbReqFileOpen where
  file_name : List Nat
  flags : Int
  mode : Int
deriving DecidableEq

/-- `gdb_request::FilePread`. -/
structure GdbReqFilePread where
  fd : Int
  size : Nat
  offset : Nat
deriving DecidableEq

/-- `gdb_request::FileClose`. -/
structure GdbReqFileClose where
  fd : Int
deriving DecidableEq

/-- `GdbRequestValue`: the typed payload of the current request. -/
inductive GdbRequestValue
  | GdbRequestNone
  | GdbRequestMem (v : GdbReqMem)
  | GdbRequestWatch (v : GdbReqWatch)
  | GdbRequestRestart (v : GdbReqRestart)
  | GdbRequestRegisterValue (v : GdbRegisterValue)
  | GdbRequestText (v : List Nat)
  | GdbRequestCont (v : GdbReqCont)
  | GdbRequestTls (v : GdbReqTls)
  | GdbRequestSymbol (v : GdbReqSymbol)
  | GdbRequestFileSetfs (v : GdbReqFileSetfs)
  | GdbRequestFileOpen (v : GdbReqFileOpen)
  | GdbRequestFilePread (v : GdbReqFilePread)
  | GdbRequestFileClose (v : GdbReqFileClose)
deriving DecidableEq

/-- `GdbRequest`: the current debugger request. -/
structure GdbRequest where
  type_ : GdbRequestType
  value : GdbRequestValue
  target : GdbThreadId
  suppress_debugger_stop : Bool
deriving DecidableEq

/-- `GdbRequest::new(maybe_type)`: `None` means `DREQ_NONE`; the value
variant is chosen to match the type (the source dispatches on the numeric
ranges of the generated bindings; kinds without a payload carry
`GdbRequestNone`), the target is `ANY` and the stop-suppression flag is
cleared. -/
def GdbRequest.new (maybe_type : Option GdbRequestType) : GdbRequest :=
  let t := maybe_type.getD GdbRequestType.DREQ_NONE
  let v : GdbRequestValue :=
    match t with
    | GdbRequestType.DREQ_NONE => GdbRequestValue.GdbRequestNone
    | GdbRequestType.DREQ_GET_MEM => GdbRequestValue.GdbRequestMem ⟨0, 0, []⟩
    | GdbRequestType.DREQ_SET_MEM => GdbRequestValue.GdbRequestMem ⟨0, 0, []⟩
    | GdbRequestType.DREQ_SEARCH_MEM => GdbRequestValue.GdbRequestMem ⟨0, 0, []⟩
    | GdbRequestType.DREQ_WATCH =>
        GdbRequestValue.GdbRequestWatch ⟨0, 0, []⟩
    | GdbRequestType.DREQ_GET_REG =>
        GdbRequestValue.GdbRequestRegisterValue GdbRegisterValue.dflt
    | GdbRequestType.DREQ_GET_REGS =>
        GdbRequestValue.GdbRequestRegisterValue GdbRegisterValue.dflt
    | GdbRequestType.DREQ_SET_REG =>
        GdbRequestValue.GdbRequestRegisterValue GdbRegisterValue.dflt
    | GdbRequestType.DREQ_RESTART =>
        GdbRequestValue.GdbRequestRestart ⟨0, [], GdbRestartType.RestartFromPrevious⟩
    | GdbRequestType.DREQ_CONT => GdbRequestValue.GdbRequestCont GdbReqCont.dflt
    | GdbRequestType.DREQ_RD_CMD => GdbRequestValue.GdbRequestText []
    | GdbRequestType.DREQ_TLS => GdbRequestValue.GdbRequestTls ⟨0, 0⟩
    | GdbRequestType.DREQ_QSYMBOL =>
        GdbRequestValue.GdbRequestSymbol ⟨false, 0, []⟩
    | GdbRequestType.DREQ_FILE_SETFS => GdbRequestValue.GdbRequestFileSetfs ⟨0⟩
    | GdbRequestType.DREQ_FILE_OPEN =>
        GdbRequestValue.GdbRequestFileOpen ⟨[], 0, 0⟩
    | GdbRequestType.DREQ_FILE_PREAD =>
        GdbRequestValue.GdbRequestFilePread ⟨0, 0, 0⟩
    | GdbRequestType.DREQ_FILE_CLOSE => GdbRequestValue.GdbRequestFileClose ⟨0⟩
    | _ => GdbRequestValue.GdbRequestNone
  { type_ := t
    value := v
    target := GdbThreadId.ANY
    suppress_debugger_stop := false }

/-- `GdbRequest::is_resume_request`. -/
def GdbRequest.is_resume_request (r : GdbRequest) : Bool :=
  r.type_ = GdbRequestType.DREQ_CONT

/-- `GdbRequest::cont().run_direction`.  The source accessor panics when
the value variant is not `Cont`; that case is unreachable because the
type and value of a request always correspond, and the model returns the
default direction there. -/
def GdbRequest.contRunDirection (r : GdbRequest) : RunDirection :=
  match r.value with
  | GdbRequestValue.GdbRequestCont v => v.run_direction
  | _ => RunDirection.RunForward

/-- `Default for GdbRequest` (used by `GdbConnection::new`): type
`DREQ_NONE`, no value, default target `(-1, -1)`. -/
def GdbRequest.dflt : GdbRequest :=
  ⟨GdbRequestType.DREQ_NONE, GdbRequestValue.GdbRequestNone, GdbThreadId.dflt, false⟩

/-- `GdbConnectionFeatures`. -/
structure GdbConnectionFeatures where
  reverse_execution : Bool
deriving DecidableEq

/-- `GdbConnection`: the stub state from `gdb_connection.rs`, plus the
socket model.  `wio` holds the outcomes of pending `write(2)` calls
(`none` = error, `some n` = `Ok(n)` bytes accepted) and `sent` is the log
of bytes actually delivered to the peer. -/
structure GdbConnection where
  req : GdbRequest
  resume_thread : GdbThreadId
  query_thread : GdbThreadId
  tgid : Int
  cpu_features_ : Nat
  no_ack : Bool
  sock_fd : Int
  inbuf : List Nat
  packetend : Nat
  outbuf : List Nat
  features_ : GdbConnectionFeatures
  connection_alive_ : Bool
  multiprocess_supported_ : Bool
  wio : List (Option Nat)
  sent : List Nat
deriving DecidableEq

/-- `GdbConnection::new(tgid, features)`: explicit settings plus the
`Default` implied settings (dead socket fd modelled as -1; the socket
model starts with no pending outcomes and nothing delivered). -/
def GdbConnection.new (tgid : Int) (features : GdbConnectionFeatures) : GdbConnection :=
  { tgid := tgid
    cpu_features_ := 0
    no_ack := false
    features_ := features
    connection_alive_ := true
    req := GdbRequest.dflt
    resume_thread := GdbThreadId.dflt
    query_thread := GdbThreadId.dflt
    sock_fd := -1
    inbuf := []
    packetend := 0
    outbuf := []
    multiprocess_supported_ := false
    wio := []
    sent := [] }

/-- `write_data_raw`: append bytes to the outbound buffer. -/
def GdbConnection.write_data_raw (c : GdbConnection) (data : List Nat) : GdbConnection :=
  { c with outbuf := c.outbuf ++ data }

/-- `write_hex`: append `{:02x}` of a value (used for packet checksums). -/
def GdbConnection.write_hex (c : GdbConnection) (hex : Nat) : GdbConnection :=
  c.write_data_raw (fmtHexPad 2 hex)

/-- `write_packet_bytes`: frame a payload as `'$' data '#' checksum` and
append it to the outbound buffer. -/
def GdbConnection.write_packet_bytes (c : GdbConnection) (data : List Nat) : GdbConnection :=
  (((c.write_data_raw [36]).write_data_raw data).write_data_raw [35]).write_hex
    (checksum data)

/-- `write_binary_packet`: prefix plus binary-escaped data, framed as a
packet. -/
def GdbConnection.write_binary_packet (c : GdbConnection) (pfx : List Nat)
    (data : List Nat) : GdbConnection :=
  c.write_packet_bytes (pfx ++ escapeBytes data)

/-- One run of the `write_flush` loop over the pending socket outcomes.
Result: (remaining outcomes, remaining outbound buffer, bytes delivered,
no-error flag).  A `none` outcome is a `write(2)` error: the source marks
the connection closed and clears the buffer.  A `some n` outcome delivers
up to `n` bytes.  If the outcomes run out with bytes left, the loop is
still blocked in `poll`/`write`; buffer and flag are returned as-is. -/
def writeFlushAux : List (Option Nat) → List Nat →
    List (Option Nat) × List Nat × List Nat × Bool
  | wio, [] => (wio, [], [], true)
  | [], buf => ([], buf, [], true)
  | Option.none :: wio, _ => (wio, [], [], false)
  | Option.some n :: wio, b :: bs =>
      let buf := b :: bs
      let k := min n buf.length
      let rest := writeFlushAux wio (buf.drop k)
      (rest.1, rest.2.1, buf.take k ++ rest.2.2.1, rest.2.2.2)

/-- `write_flush`: send all pending output, looping over short writes;
on a write error mark the connection closed and discard the buffer. -/
def GdbConnection.write_flush (c : GdbConnection) : GdbConnection :=
  let r := writeFlushAux c.wio c.outbuf
  { c with
    wio := r.1
    outbuf := r.2.1
    sent := c.sent ++ r.2.2.1
    connection_alive_ := c.connection_alive_ && r.2.2.2 }

/-- `consume_request`: reset the current request to a fresh `DREQ_NONE`
request and flush the outbound buffer. -/
def GdbConnection.consume_request (c : GdbConnection) : GdbConnection :=
  GdbConnection.write_flush { c with req := GdbRequest.new Option.none }

/-- Signal numbers of linux-x86/x86_64, the values behind the `libc`
constants the source matches on. -/
def SIGHUP : Int := 1
def SIGINT : Int := 2
def SIGQUIT : Int := 3
def SIGILL : Int := 4
def SIGTRAP : Int := 5
def SIGABRT : Int := 6
def SIGBUS : Int := 7
def SIGFPE : Int := 8
def SIGKILL : Int := 9
def SIGUSR1 : Int := 10
def SIGSEGV : Int := 11
def SIGUSR2 : Int := 12
def SIGPIPE : Int := 13
def SIGALRM : Int := 14
def SIGTERM : Int := 15
def SIGSTKFLT : Int := 16
def SIGCHLD : Int := 17
def SIGCONT : Int := 18
def SIGSTOP : Int := 19
def SIGTSTP : Int := 20
def SIGTTIN : Int := 21
def SIGTTOU : Int := 22
def SIGURG : Int := 23
def SIGXCPU : Int := 24
def SIGXFSZ : Int := 25
def SIGVTALRM : Int := 26
def SIGPROF : Int := 27
def SIGWINCH : Int := 28
def SIGIO : Int := 29
def SIGPWR : Int := 30
def SIGSYS : Int := 31

/-- Body of `to_gdb_signum` for a present signal: translate a raw
linux-x86 signal number into gdb's internal numbering (the source's
`match sig` rendered as an equality chain; all patterns are distinct
constants so the order is immaterial). -/
def to_gdb_signum_raw (sig : Int) : Int :=
  if sig = 0 then 0
  else if sig = SIGHUP then 1
  else if sig = SIGINT then 2
  else if sig = SIGQUIT then 3
  else if sig = SIGILL then 4
  else if sig = SIGTRAP then 5
  else if sig = SIGABRT then 6
  else if sig = SIGBUS then 10
  else if sig = SIGFPE then 8
  else if sig = SIGKILL then 9
  else if sig = SIGUSR1 then 30
  else if sig = SIGSEGV then 11
  else if sig = SIGUSR2 then 31
  else if sig = SIGPIPE then 13
  else if sig = SIGALRM then 14
  else if sig = SIGTERM then 15
  else if sig = SIGSTKFLT then 38
  else if sig = SIGCHLD then 20
  else if sig = SIGCONT then 19
  else if sig = SIGSTOP then 17
  else if sig = SIGTSTP then 18
  else if sig = SIGTTIN then 21
  else if sig = SIGTTOU then 22
  else if sig = SIGURG then 16
  else if sig = SIGXCPU then 24
  else if sig = SIGXFSZ then 25
  else if sig = SIGVTALRM then 26
  else if sig = SIGPROF then 27
  else if sig = SIGWINCH then 28
  else if sig = SIGIO then 23
  else if sig = SIGPWR then 32
  else if sig = SIGSYS then 12
  else if sig = 32 then 77
  else if 33 ≤ sig ∧ sig ≤ 63 then sig + 12
  else if 64 ≤ sig ∧ sig ≤ 127 then sig + 14
  else 143

/-- `to_gdb_signum`: `None` (no signal) maps to 0, otherwise translate the
raw signal value. -/
def to_gdb_signum (maybe_sig : Option Sig) : Int :=
  match maybe_sig with
  | Option.none => 0
  | Option.some s => to_gdb_signum_raw s.as_raw

/-- The stop-reply payload built by `send_stop_reply_packet`:
`T{:02x}thread:p{:02x}.{:02x};` or `T{:02x}thread:{:02x};` depending on
the multiprocess flag, then `watch:{};` (note: `{}`, i.e. decimal
`Display` of the address) when the watch address is non-null. -/
def stop_reply_payload (mp : Bool) (thread : GdbThreadId) (maybe_sig : Option Sig)
    (watch_addr : Nat) : List Nat :=
  (if mp then
    strBytes "T" ++ fmtHex2I (to_gdb_signum maybe_sig) ++ strBytes "thread:p" ++
      fmtHex2I thread.pid ++ strBytes "." ++ fmtHex2I thread.tid ++ strBytes ";"
  else
    strBytes "T" ++ fmtHex2I (to_gdb_signum maybe_sig) ++ strBytes "thread:" ++
      fmtHex2I thread.tid ++ strBytes ";") ++
  (if watch_addr ≠ 0 then strBytes "watch:" ++ fmtDec watch_addr ++ strBytes ";"
   else [])

/-- `send_stop_reply_packet`. -/
def GdbConnection.send_stop_reply_packet (c : GdbConnection) (thread : GdbThreadId)
    (maybe_sig : Option Sig) (watch_addr : Nat) : GdbConnection :=
  c.write_packet_bytes
    (stop_reply_payload c.multiprocess_supported_ thread maybe_sig watch_addr)

/-- `notify_stop`: stops of threads outside the pretended tgid are
swallowed; otherwise a stop-reply packet is sent, the resume/query
threads are rewritten (ANY after a reverse continue, the stopping thread
after a forward continue or interrupt), and the request is consumed. -/
def GdbConnection.notify_stop (c : GdbConnection) (thread : GdbThreadId)
    (maybe_sig : Option Sig) (watch_addr : Nat) : GdbConnection :=
  if c.tgid ≠ thread.pid then
    c
  else
    let c := c.send_stop_reply_packet thread maybe_sig watch_addr
    let c :=
      if c.req.is_resume_request ∧
          c.req.contRunDirection = RunDirection.RunBackward then
        { c with resume_thread := GdbThreadId.ANY, query_thread := GdbThreadId.ANY }
      else
        { c with resume_thread := thread, query_thread := thread }
    c.consume_request

/-- `reply_get_stop_reason`: a stop-reply packet with a null watch
address, then consume. -/
def GdbConnection.reply_get_stop_reason (c : GdbConnection) (which : GdbThreadId)
    (sig : Sig) : GdbConnection :=
  (c.send_stop_reply_packet which (Option.some sig) 0).consume_request

/-- The payload of `reply_get_current_thread`: `QCp{:02x}.{:02x}` or
`QC{:02x}`. -/
def qc_payload (mp : Bool) (thread : GdbThreadId) : List Nat :=
  if mp then
    strBytes "QCp" ++ fmtHex2I thread.pid ++ strBytes "." ++ fmtHex2I thread.tid
  else
    strBytes "QC" ++ fmtHex2I thread.tid

/-- `reply_get_current_thread`. -/
def GdbConnection.reply_get_current_thread (c : GdbConnection)
    (thread : GdbThreadId) : GdbConnection :=
  (c.write_packet_bytes (qc_payload c.multiprocess_supported_ thread)).consume_request

/-- The per-thread entry written by the `reply_get_thread_list` loop:
`p{:02x}.{:02x},` or `{:02x},`. -/
def thread_list_entry (mp : Bool) (t : GdbThreadId) : List Nat :=
  if mp then
    strBytes "p" ++ fmtHex2I t.pid ++ strBytes "." ++ fmtHex2I t.tid ++ strBytes ","
  else
    fmtHex2I t.tid ++ strBytes ","

/-- The payload of `reply_get_thread_list`: `l` when the thread list is
empty, otherwise `'m'` followed by the entries of the threads whose pid
equals the pretended tgid, with the final byte dropped (the source slices
`&buf[..buf.len() - 1]` to omit the trailing comma). -/
def thread_list_payload (mp : Bool) (tgid : Int) (threads : List GdbThreadId) :
    List Nat :=
  if threads = [] then strBytes "l"
  else
    (strBytes "m" ++
      ((threads.filter fun t => decide (tgid = t.pid)).map
        (thread_list_entry mp)).flatten).dropLast

/-- `reply_get_thread_list`. -/
def GdbConnection.reply_get_thread_list (c : GdbConnection)
    (threads : List GdbThreadId) : GdbConnection :=
  (c.write_packet_bytes
    (thread_list_payload c.multiprocess_supported_ c.tgid threads)).consume_request

/-- `reply_set_reg`: `OK` on success, an empty payload (never an error
packet) on failure, then consume. -/
def GdbConnection.reply_set_reg (c : GdbConnection) (ok : Bool) : GdbConnection :=
  (if ok then c.write_packet_bytes (strBytes "OK")
   else c.write_packet_bytes []).consume_request

/-- One more than `usize::MAX`: the modulus of 64-bit `usize` arithmetic. -/
def USIZE : Nat := 18446744073709551616

/-- `write_xfer_response`: qXfer slicing of the full reply data.  `offset`
and `len` are `usize`, so the source's `offset + len` is 64-bit: the model
keeps the release-profile semantics, reducing the sum modulo 2^64, and
returns `none` where the program panics — the slice
`data[offset..offset + len]` with a wrapped end below `offset` (a wrap
always puts the end below `offset`, since `len < 2^64`).  In debug builds
the overflowing add itself panics; the two profiles differ only when the
wrapped sum is at least `size` (release writes the tail packet, debug
panics), a region the overflow-free theorems below never touch. -/
def GdbConnection.write_xfer_response (c : GdbConnection) (data : List Nat)
    (offset len : Nat) : Option GdbConnection :=
  let size := data.length
  if offset > size then Option.some (c.write_packet_bytes (strBytes "E01"))
  else if offset = size then Option.some (c.write_packet_bytes (strBytes "l"))
  else if (offset + len) % USIZE < size then
    if offset ≤ (offset + len) % USIZE then
      Option.some (c.write_binary_packet (strBytes "m")
        ((data.drop offset).take ((offset + len) % USIZE - offset)))
    else Option.none
  else Option.some (c.write_binary_packet (strBytes "l") (data.drop offset))

/-- Errno values of linux-x86/x86_64, the values behind the `libc`
constants the source matches on. -/
def EPERM : Int := 1
def ENOENT : Int := 2
def EINTR : Int := 4
def EBADF : Int := 9
def EACCES : Int := 13
def EFAULT : Int := 14
def EBUSY : Int := 16
def EEXIST : Int := 17
def ENODEV : Int := 19
def ENOTDIR : Int := 20
def EISDIR : Int := 21
def EINVAL : Int := 22
def ENFILE : Int := 23
def EMFILE : Int := 24
def EFBIG : Int := 27
def ENOSPC : Int := 28
def ESPIPE : Int := 29
def EROFS : Int := 30
def ENAMETOOLONG : Int := 36

/-- The errno translation inside `send_file_error_reply`: host errno to
the protocol errno code, 9999 for anything unknown. -/
def gdb_err_of (system_errno : Int) : Int :=
  if system_errno = EPERM then 1
  else if system_errno = ENOENT then 2
  else if system_errno = EINTR then 4
  else if system_errno = EBADF then 9
  else if system_errno = EACCES then 13
  else if system_errno = EFAULT then 14
  else if system_errno = EBUSY then 16
  else if system_errno = EEXIST then 17
  else if system_errno = ENODEV then 19
  else if system_errno = ENOTDIR then 20
  else if system_errno = EISDIR then 21
  else if system_errno = EINVAL then 22
  else if system_errno = ENFILE then 23
  else if system_errno = EMFILE then 24
  else if system_errno = EFBIG then 27
  else if system_errno = ENOSPC then 28
  else if system_errno = ESPIPE then 29
  else if system_errno = EROFS then 30
  else if system_errno = ENAMETOOLONG then 91
  else 9999

/-- The payload written by `send_file_error_reply`: `F-01,{:x}` of the
translated errno. -/
def file_error_payload (system_errno : Int) : List Nat :=
  strBytes "F-01," ++ fmtHexI (gdb_err_of system_errno)

/-- `send_file_error_reply` (writes the packet; callers consume). -/
def GdbConnection.send_file_error_reply (c : GdbConnection)
    (system_errno : Int) : GdbConnection :=
  c.write_packet_bytes (file_error_payload system_errno)

/-- `reply_setfs`. -/
def GdbConnection.reply_setfs (c : GdbConnection) (err : Int) : GdbConnection :=
  (if err ≠ 0 then c.send_file_error_reply err
   else c.write_packet_bytes (strBytes "F0")).consume_request

/-- `reply_open`. -/
def GdbConnection.reply_open (c : GdbConnection) (fd : Int) (err : Int) :
    GdbConnection :=
  (if err ≠ 0 then c.send_file_error_reply err
   else c.write_packet_bytes (strBytes "F" ++ fmtHexI fd ++ strBytes ";")).consume_request

/-- `reply_pread`. -/
def GdbConnection.reply_pread (c : GdbConnection) (bytes : List Nat) (err : Int) :
    GdbConnection :=
  (if err ≠ 0 then c.send_file_error_reply err
   else c.write_binary_packet
     (strBytes "F" ++ fmtHexPad 1 bytes.length ++ strBytes ";") bytes).consume_request

/-- `reply_close`. -/
def GdbConnection.reply_close (c : GdbConnection) (err : Int) : GdbConnection :=
  (if err ≠ 0 then c.send_file_error_reply err
   else c.write_packet_bytes (strBytes "F0")).consume_request
/-- Total number of bytes the modelled socket is still willing to accept
(the sum of the `Ok(n)` outcomes). -/
def acceptSum (wio : List (Option Nat)) : Nat :=
  (wio.filterMap id).sum

theorem writeFlushAux_complete (wio : List (Option Nat)) (buf : List Nat)
    (h1 : Option.none ∉ wio) (h2 : buf.length ≤ acceptSum wio) :
    (writeFlushAux wio buf).2.1 = [] ∧
    (writeFlushAux wio buf).2.2.1 = buf ∧
    (writeFlushAux wio buf).2.2.2 = true := by
  induction wio generalizing buf with
  | nil =>
    cases buf with
    | nil => simp [writeFlushAux]
    | cons b bs =>
      exfalso
      simp [acceptSum] at h2
  | cons o rest ih =>
    cases buf with
    | nil => simp [writeFlushAux]
    | cons b bs =>
      cases o with
      | none => exact absurd (List.mem_cons_self ..) h1
      | some n =>
        have hn : Option.none ∉ rest := fun hm => h1 (List.mem_cons_of_mem _ hm)
        have hsum : acceptSum (Option.some n :: rest) = n + acceptSum rest := by
          simp [acceptSum]
        have hlen : (List.drop (min n (b :: bs).length) (b :: bs)).length ≤
            acceptSum rest := by
          rw [List.length_drop]
          omega
        obtain ⟨e1, e2, e3⟩ := ih (List.drop (min n (b :: bs).length) (b :: bs)) hn hlen
        refine ⟨?_, ?_, ?_⟩
        · simpa [writeFlushAux] using e1
        · have : (writeFlushAux (Option.some n :: rest) (b :: bs)).2.2.1 =
              List.take (min n (b :: bs).length) (b :: bs) ++
                (writeFlushAux rest (List.drop (min n (b :: bs).length) (b :: bs))).2.2.1 := by
            simp [writeFlushAux]
          rw [this, e2, List.take_append_drop]
        · simpa [writeFlushAux] using e3

theorem writeFlushAux_empties (wio : List (Option Nat)) (buf : List Nat)
    (h : Option.none ∈ wio ∨ buf.length ≤ acceptSum wio) :
    (writeFlushAux wio buf).2.1 = [] := by
  induction wio generalizing buf with
  | nil =>
    cases buf with
    | nil => simp [writeFlushAux]
    | cons b bs =>
      exfalso
      rcases h with h | h
      · simp at h
      · simp [acceptSum] at h
  | cons o rest ih =>
    cases buf with
    | nil => simp [writeFlushAux]
    | cons b bs =>
      cases o with
      | none => simp [writeFlushAux]
      | some n =>
        have h' : Option.none ∈ rest ∨
            (List.drop (min n (b :: bs).length) (b :: bs)).length ≤ acceptSum rest := by
          rcases h with h | h
          · left
            rcases List.mem_cons.mp h with h | h
            · exact absurd h (by simp)
            · exact h
          · right
            rw [List.length_drop]
            have hsum : acceptSum (Option.some n :: rest) = n + acceptSum rest := by
              simp [acceptSum]
            omega
        simpa [writeFlushAux] using ih _ h'

theorem writeFlushAux_dichotomy (wio : List (Option Nat)) (buf : List Nat)
    (h : (writeFlushAux wio buf).2.1 = []) :
    ((writeFlushAux wio buf).2.2.2 = true ∧ (writeFlushAux wio buf).2.2.1 = buf) ∨
    (writeFlushAux wio buf).2.2.2 = false := by
  induction wio generalizing buf with
  | nil =>
    cases buf with
    | nil => left; simp [writeFlushAux]
    | cons b bs => simp [writeFlushAux] at h
  | cons o rest ih =>
    cases buf with
    | nil => left; simp [writeFlushAux]
    | cons b bs =>
      cases o with
      | none => right; simp [writeFlushAux]
      | some n =>
        have h' : (writeFlushAux rest (List.drop (min n (b :: bs).length) (b :: bs))).2.1 = [] := by
          simpa [writeFlushAux] using h
        rcases ih _ h' with ⟨ht, hs⟩ | hf
        · left
          constructor
          · simpa [writeFlushAux] using ht
          · have : (writeFlushAux (Option.some n :: rest) (b :: bs)).2.2.1 =
                List.take (min n (b :: bs).length) (b :: bs) ++
                  (writeFlushAux rest (List.drop (min n (b :: bs).length) (b :: bs))).2.2.1 := by
              simp [writeFlushAux]
            rw [this, hs, List.take_append_drop]
        · right
          simpa [writeFlushAux] using hf

theorem write_flush_ok (c : GdbConnection)
    (h1 : Option.none ∉ c.wio) (h2 : c.outbuf.length ≤ acceptSum c.wio) :
    c.write_flush.outbuf = [] ∧ c.write_flush.sent = c.sent ++ c.outbuf ∧
    c.write_flush.connection_alive_ = c.connection_alive_ ∧
    c.write_flush.req = c.req ∧
    c.write_flush.resume_thread = c.resume_thread ∧
    c.write_flush.query_thread = c.query_thread := by
  obtain ⟨e1, e2, e3⟩ := writeFlushAux_complete c.wio c.outbuf h1 h2
  simp [GdbConnection.write_flush, e1, e2, e3]

theorem write_packet_bytes_state (c : GdbConnection) (pl : List Nat) :
    c.write_packet_bytes pl = { c with outbuf := c.outbuf ++ packetBytes pl } := by
  simp [GdbConnection.write_packet_bytes, GdbConnection.write_data_raw,
    GdbConnection.write_hex, packetBytes]

/-- Effect of writing one packet and consuming the request, when the
socket accepts everything without error: the whole buffer followed by the
packet is delivered, the buffer is empty, the request is reset. -/
theorem send_packet_spec (c : GdbConnection) (pl : List Nat)
    (h1 : Option.none ∉ c.wio)
    (h2 : c.outbuf.length + (packetBytes pl).length ≤ acceptSum c.wio) :
    ((c.write_packet_bytes pl).consume_request).sent =
      c.sent ++ c.outbuf ++ packetBytes pl ∧
    ((c.write_packet_bytes pl).consume_request).outbuf = [] ∧
    ((c.write_packet_bytes pl).consume_request).req = GdbRequest.new Option.none ∧
    ((c.write_packet_bytes pl).consume_request).connection_alive_ = c.connection_alive_ ∧
    ((c.write_packet_bytes pl).consume_request).resume_thread = c.resume_thread ∧
    ((c.write_packet_bytes pl).consume_request).query_thread = c.query_thread := by
  rw [write_packet_bytes_state]
  set c' : GdbConnection :=
    { c with outbuf := c.outbuf ++ packetBytes pl, req := GdbRequest.new Option.none } with hc'
  have hcc : ({ c with outbuf := c.outbuf ++ packetBytes pl} : GdbConnection).consume_request
      = c'.write_flush := by
    simp [GdbConnection.consume_request, hc']
  have hlen : c'.outbuf.length ≤ acceptSum c'.wio := by
    simp [hc', List.length_append]
    omega
  have h1' : Option.none ∉ c'.wio := by simpa [hc'] using h1
  obtain ⟨e1, e2, e3, e4, e5, e6⟩ := write_flush_ok c' h1' hlen
  rw [hcc]
  refine ⟨?_, ?_, ?_, ?_, ?_, ?_⟩ <;>
    simp [e1, e2, e3, e4, e5, e6, hc', List.append_assoc]

theorem hexDigitByte_le (d : Nat) (h : d < 16) : hexDigitByte d ≤ 102 := by
  unfold hexDigitByte
  split <;> omega

theorem hexLEAux_all_le (fuel : Nat) :
    ∀ (n : Nat), ∀ b ∈ hexLEAux fuel n, b ≤ 102 := by
  induction fuel with
  | zero => intro n b hb; simp [hexLEAux] at hb
  | succ f ih =>
    intro n b hb
    cases n with
    | zero => simp [hexLEAux] at hb
    | succ m =>
      simp only [hexLEAux, List.mem_cons] at hb
      rcases hb with h | h
      · subst h
        exact hexDigitByte_le _ (Nat.mod_lt _ (by omega))
      · exact ih _ b h

theorem fmtHexPad_all_le (w n : Nat) : ∀ b ∈ fmtHexPad w n, b ≤ 102 := by
  intro b hb
  unfold fmtHexPad at hb
  simp only [List.mem_append] at hb
  rcases hb with h | h
  · have := List.eq_of_mem_replicate h
    omega
  · split at h
    · simp at h
      omega
    · exact hexLEAux_all_le _ _ b (List.mem_reverse.mp h)

theorem fmtHexPad_head_ne_p (w n : Nat) :
    (fmtHexPad w n).head? ≠ Option.some 112 := by
  intro h
  cases hl : fmtHexPad w n with
  | nil => rw [hl] at h; simp at h
  | cons a l =>
    rw [hl] at h
    simp at h
    have : a ∈ fmtHexPad w n := by rw [hl]; exact List.mem_cons_self ..
    have := fmtHexPad_all_le w n a this
    omega

theorem fmtHex2I_head_ne_p (i : Int) :
    (fmtHex2I i).head? ≠ Option.some 112 :=
  fmtHexPad_head_ne_p 2 (u32OfI32 i)

/-- Thread-id formatting as the spec's §3/§8 invariant describes it:
`p<pid>.<tid>` in multiprocess mode, the bare tid otherwise. -/
def threadIdSpecFmt (mp : Bool) (t : GdbThreadId) : List Nat :=
  if mp then
    strBytes "p" ++ fmtHex2I t.pid ++ strBytes "." ++ fmtHex2I t.tid
  else fmtHex2I t.tid

theorem thread_list_entry_split (mp : Bool) (t : GdbThreadId) :
    thread_list_entry mp t = threadIdSpecFmt mp t ++ strBytes "," := by
  cases mp <;> simp [thread_list_entry, threadIdSpecFmt, List.append_assoc]

/-- Comma-separated join of byte strings, as the protocol's thread-list
reply presents its entries. -/
def commaJoin : List (List Nat) → List Nat
  | [] => []
  | [x] => x
  | x :: y :: rest => x ++ strBytes "," ++ commaJoin (y :: rest)

theorem flatten_dropLast_commaJoin (xs : List (List Nat)) (h : xs ≠ []) :
    ((xs.map fun e => e ++ strBytes ",").flatten).dropLast = commaJoin xs := by
  induction xs with
  | nil => cases h rfl
  | cons a rest ih =>
    cases rest with
    | nil =>
      show ((a ++ strBytes ",") ++ [].flatten).dropLast = a
      simp [strBytes, List.dropLast_concat]
    | cons b t =>
      have hne : ((List.map (fun e => e ++ strBytes ",") (b :: t)).flatten) ≠ [] := by
        simp [strBytes]
      have hsplit : (List.map (fun e => e ++ strBytes ",") (a :: b :: t)).flatten
          = (a ++ strBytes ",") ++ (List.map (fun e => e ++ strBytes ",") (b :: t)).flatten := rfl
      rw [hsplit, List.dropLast_append_of_ne_nil _ hne, ih (by simp)]
      show (a ++ strBytes ",") ++ commaJoin (b :: t) = commaJoin (a :: b :: t)
      simp [commaJoin, List.append_assoc]

/-- The claim's documented signal table, written from the spec's §4.6
wording (HUP→1 … STKFLT→38, 32→77, 33..=63→sig+12, 64..=127→sig+14,
anything else→143), for comparison with the source translation. -/
def gdb_signum_spec_raw (sig : Int) : Int :=
  if sig = 1 then 1
  else if sig = 2 then 2
  else if sig = 3 then 3
  else if sig = 4 then 4
  else if sig = 5 then 5
  else if sig = 6 then 6
  else if sig = 8 then 8
  else if sig = 9 then 9
  else if sig = 7 then 10
  else if sig = 11 then 11
  else if sig = 31 then 12
  else if sig = 13 then 13
  else if sig = 14 then 14
  else if sig = 15 then 15
  else if sig = 23 then 16
  else if sig = 19 then 17
  else if sig = 20 then 18
  else if sig = 18 then 19
  else if sig = 17 then 20
  else if sig = 21 then 21
  else if sig = 22 then 22
  else if sig = 29 then 23
  else if sig = 24 then 24
  else if sig = 25 then 25
  else if sig = 26 then 26
  else if sig = 27 then 27
  else if sig = 28 then 28
  else if sig = 10 then 30
  else if sig = 12 then 31
  else if sig = 30 then 32
  else if sig = 16 then 38
  else if sig = 32 then 77
  else if 33 ≤ sig ∧ sig ≤ 63 then sig + 12
  else if 64 ≤ sig ∧ sig ≤ 127 then sig + 14
  else 143

/-- The claim's table lifted to `Option Sig`: no signal → 0. -/
def gdb_signum_spec (maybe_sig : Option Sig) : Int :=
  match maybe_sig with
  | Option.none => 0
  | Option.some s => gdb_signum_spec_raw s.as_raw

/-- Left inverse of the signal translation on its documented domain,
witnessing injectivity. -/
def gdb_signum_inv (g : Int) : Int :=
  if g = 0 then 0
  else if g = 1 then 1
  else if g = 2 then 2
  else if g = 3 then 3
  else if g = 4 then 4
  else if g = 5 then 5
  else if g = 6 then 6
  else if g = 10 then 7
  else if g = 8 then 8
  else if g = 9 then 9
  else if g = 30 then 10
  else if g = 11 then 11
  else if g = 31 then 12
  else if g = 13 then 13
  else if g = 14 then 14
  else if g = 15 then 15
  else if g = 38 then 16
  else if g = 20 then 17
  else if g = 19 then 18
  else if g = 17 then 19
  else if g = 18 then 20
  else if g = 21 then 21
  else if g = 22 then 22
  else if g = 16 then 23
  else if g = 24 then 24
  else if g = 25 then 25
  else if g = 26 then 26
  else if g = 27 then 27
  else if g = 28 then 28
  else if g = 23 then 29
  else if g = 32 then 30
  else if g = 12 then 31
  else if g = 77 then 32
  else if 45 ≤ g ∧ g ≤ 75 then g - 12
  else if 78 ≤ g ∧ g ≤ 141 then g - 14
  else 0

theorem signum_inv_nat :
    ∀ n : Nat, n < 127 → gdb_signum_inv (to_gdb_signum_raw ((n : Int) + 1)) = (n : Int) + 1 := by
  decide

theorem signum_spec_nat :
    ∀ n : Nat, n < 127 →
      to_gdb_signum_raw ((n : Int) + 1) = gdb_signum_spec_raw ((n : Int) + 1) := by
  decide

theorem to_gdb_signum_raw_out (r : Int) (h : r < 0 ∨ 127 < r) :
    to_gdb_signum_raw r = 143 := by
  simp only [to_gdb_signum_raw, SIGHUP, SIGINT, SIGQUIT, SIGILL, SIGTRAP, SIGABRT,
    SIGBUS, SIGFPE, SIGKILL, SIGUSR1, SIGSEGV, SIGUSR2, SIGPIPE, SIGALRM, SIGTERM,
    SIGSTKFLT, SIGCHLD, SIGCONT, SIGSTOP, SIGTSTP, SIGTTIN, SIGTTOU, SIGURG,
    SIGXCPU, SIGXFSZ, SIGVTALRM, SIGPROF, SIGWINCH, SIGIO, SIGPWR, SIGSYS]
  rcases h with h | h <;> · repeat rw [if_neg (by omega)]

theorem gdb_signum_spec_raw_out (r : Int) (h : r < 0 ∨ 127 < r) :
    gdb_signum_spec_raw r = 143 := by
  simp only [gdb_signum_spec_raw]
  rcases h with h | h <;> · repeat rw [if_neg (by omega)]

theorem signum_inv_int (r : Int) (h1 : 1 ≤ r) (h2 : r ≤ 127) :
    gdb_signum_inv (to_gdb_signum_raw r) = r := by
  have hn : ((r - 1).toNat : Int) + 1 = r := by omega
  have hlt : (r - 1).toNat < 127 := by omega
  have := signum_inv_nat (r - 1).toNat hlt
  rwa [hn] at this

theorem to_gdb_signum_raw_pos_ne_zero (r : Int) (h1 : 1 ≤ r) (h2 : r ≤ 127) :
    to_gdb_signum_raw r ≠ 0 := by
  intro h
  have := signum_inv_int r h1 h2
  rw [h] at this
  simp [gdb_signum_inv] at this
  omega

/-- The documented domain of the signal translation: no signal, or a host
signal in the tabulated range 1..=127. -/
def sig_documented (maybe_sig : Option Sig) : Prop :=
  match maybe_sig with
  | Option.none => True
  | Option.some s => 1 ≤ s.as_raw ∧ s.as_raw ≤ 127

/-- A concrete SIGTRAP value. -/
def sigTrapVal : Sig := ⟨5, by decide⟩

/-- C1: the claim says the stop-reply packet ends with `watch:<addr-hex>;`
(the watch address in lowercase hexadecimal) when the watch address is
non-null.  The source formats the address with `{}` — decimal `Display` —
so for address 255 the payload carries `watch:255;` and not `watch:ff;`:
the code contradicts the documented stop-reply format. -/
theorem c1_stop_reply_watch_is_decimal :
    stop_reply_payload false ⟨1, 2⟩ (Option.some sigTrapVal) 255 =
      strBytes "T05thread:02;watch:255;" ∧
    stop_reply_payload false ⟨1, 2⟩ (Option.some sigTrapVal) 255 ≠
      strBytes "T05thread:02;watch:ff;" := by
  decide

/-- C2: a stop of a thread whose pid is not the pretended tgid is
swallowed whole — `notify_stop` returns the stub state unchanged, so
nothing is written, the continue request stays live, and the
resume/query threads keep their values. -/
theorem c2_notify_stop_foreign_pid (c : GdbConnection) (thread : GdbThreadId)
    (maybe_sig : Option Sig) (watch_addr : Nat)
    (h : c.tgid ≠ thread.pid) :
    c.notify_stop thread maybe_sig watch_addr = c := by
  simp [GdbConnection.notify_stop, h]

theorem c2_witness :
    (GdbConnection.new 1 ⟨true⟩).tgid ≠ (⟨2, 2⟩ : GdbThreadId).pid ∧
    (GdbConnection.new 1 ⟨true⟩).notify_stop ⟨2, 2⟩ Option.none 0 =
      GdbConnection.new 1 ⟨true⟩ :=
  ⟨by decide, c2_notify_stop_foreign_pid _ _ Option.none 0 (by decide)⟩

/-- C3: for a stop inside the pretended tgid, a preceding backward
continue resets both selected threads to `ANY`, a forward continue or an
interrupt selects the stopping thread, and in both cases the current
request is consumed (becomes `DREQ_NONE`). -/
theorem c3_notify_stop_thread_focus (c : GdbConnection) (thread : GdbThreadId)
    (maybe_sig : Option Sig) (watch_addr : Nat)
    (h : c.tgid = thread.pid) :
    ((c.req.type_ = GdbRequestType.DREQ_CONT ∧
        c.req.contRunDirection = RunDirection.RunBackward) →
      (c.notify_stop thread maybe_sig watch_addr).resume_thread = GdbThreadId.ANY ∧
      (c.notify_stop thread maybe_sig watch_addr).query_thread = GdbThreadId.ANY) ∧
    (((c.req.type_ = GdbRequestType.DREQ_CONT ∧
        c.req.contRunDirection = RunDirection.RunForward) ∨
        c.req.type_ = GdbRequestType.DREQ_INTERRUPT) →
      (c.notify_stop thread maybe_sig watch_addr).resume_thread = thread ∧
      (c.notify_stop thread maybe_sig watch_addr).query_thread = thread) ∧
    (c.notify_stop thread maybe_sig watch_addr).req.type_ =
      GdbRequestType.DREQ_NONE := by
  have hne : ¬ c.tgid ≠ thread.pid := by simp [h]
  refine ⟨?_, ?_, ?_⟩
  · rintro ⟨ht, hd⟩
    have hcond : (c.send_stop_reply_packet thread maybe_sig watch_addr).req.is_resume_request ∧
        (c.send_stop_reply_packet thread maybe_sig watch_addr).req.contRunDirection =
          RunDirection.RunBackward := by
      simp [GdbConnection.send_stop_reply_packet, write_packet_bytes_state,
        GdbRequest.is_resume_request, ht, hd]
    simp [GdbConnection.notify_stop, hne, hcond, GdbConnection.consume_request,
      GdbConnection.write_flush]
  · intro hcase
    have hcond : ¬ ((c.send_stop_reply_packet thread maybe_sig watch_addr).req.is_resume_request ∧
        (c.send_stop_reply_packet thread maybe_sig watch_addr).req.contRunDirection =
          RunDirection.RunBackward) := by
      simp only [GdbConnection.send_stop_reply_packet, write_packet_bytes_state,
        GdbRequest.is_resume_request]
      rcases hcase with ⟨ht, hd⟩ | hi
      · simp [ht, hd]
      · simp [hi]
    simp [GdbConnection.notify_stop, hne, hcond, GdbConnection.consume_request,
      GdbConnection.write_flush]
  · by_cases hcond : (c.send_stop_reply_packet thread maybe_sig watch_addr).req.is_resume_request ∧
        (c.send_stop_reply_packet thread maybe_sig watch_addr).req.contRunDirection =
          RunDirection.RunBackward <;>
      simp [GdbConnection.notify_stop, hne, hcond, GdbConnection.consume_request,
        GdbConnection.write_flush, GdbRequest.new]

/-- A stub state whose current request is a backward continue. -/
def backwardContState : GdbConnection :=
  { GdbConnection.new 1 ⟨true⟩ with
    req :=
      { type_ := GdbRequestType.DREQ_CONT
        value := GdbRequestValue.GdbRequestCont ⟨RunDirection.RunBackward, []⟩
        target := GdbThreadId.ANY
        suppress_debugger_stop := false } }

theorem c3_witness :
    backwardContState.tgid = (⟨1, 5⟩ : GdbThreadId).pid ∧
    (((backwardContState.req.type_ = GdbRequestType.DREQ_CONT ∧
        backwardContState.req.contRunDirection = RunDirection.RunBackward) →
      (backwardContState.notify_stop ⟨1, 5⟩ Option.none 0).resume_thread = GdbThreadId.ANY ∧
      (backwardContState.notify_stop ⟨1, 5⟩ Option.none 0).query_thread = GdbThreadId.ANY) ∧
    (((backwardContState.req.type_ = GdbRequestType.DREQ_CONT ∧
        backwardContState.req.contRunDirection = RunDirection.RunForward) ∨
        backwardContState.req.type_ = GdbRequestType.DREQ_INTERRUPT) →
      (backwardContState.notify_stop ⟨1, 5⟩ Option.none 0).resume_thread = ⟨1, 5⟩ ∧
      (backwardContState.notify_stop ⟨1, 5⟩ Option.none 0).query_thread = ⟨1, 5⟩) ∧
    (backwardContState.notify_stop ⟨1, 5⟩ Option.none 0).req.type_ =
      GdbRequestType.DREQ_NONE) :=
  ⟨rfl, c3_notify_stop_thread_focus backwardContState ⟨1, 5⟩ Option.none 0 rfl⟩

/-- C4: the host→protocol signal translation agrees with the documented
table everywhere, and is injective on its documented domain (no signal,
or signals 1..=127). -/
theorem c4_signal_translation :
    (∀ s : Option Sig, to_gdb_signum s = gdb_signum_spec s) ∧
    (∀ s t : Option Sig, sig_documented s → sig_documented t →
      to_gdb_signum s = to_gdb_signum t → s = t) := by
  constructor
  · intro s
    cases s with
    | none => rfl
    | some s =>
      show to_gdb_signum_raw s.as_raw = gdb_signum_spec_raw s.as_raw
      rcases s with ⟨r, hr⟩
      show to_gdb_signum_raw r = gdb_signum_spec_raw r
      by_cases hb : 1 ≤ r ∧ r ≤ 127
      · have hn : ((r - 1).toNat : Int) + 1 = r := by omega
        have hlt : (r - 1).toNat < 127 := by omega
        have := signum_spec_nat (r - 1).toNat hlt
        rwa [hn] at this
      · have hout : r < 0 ∨ 127 < r := by omega
        rw [to_gdb_signum_raw_out r hout, gdb_signum_spec_raw_out r hout]
  · intro s t hs ht heq
    cases s with
    | none =>
      cases t with
      | none => rfl
      | some t =>
        exfalso
        rcases ht with ⟨h1, h2⟩
        exact to_gdb_signum_raw_pos_ne_zero t.as_raw h1 h2 heq.symm
    | some s =>
      cases t with
      | none =>
        exfalso
        rcases hs with ⟨h1, h2⟩
        exact to_gdb_signum_raw_pos_ne_zero s.as_raw h1 h2 heq
      | some t =>
        rcases hs with ⟨hs1, hs2⟩
        rcases ht with ⟨ht1, ht2⟩
        have hv : s.as_raw = t.as_raw := by
          have h1 := signum_inv_int s.as_raw hs1 hs2
          have h2 := signum_inv_int t.as_raw ht1 ht2
          rw [← h1, ← h2]
          exact congrArg gdb_signum_inv heq
        exact congrArg Option.some (Subtype.ext hv)

/-- A concrete SIGKILL value. -/
def sigKillVal : Sig := ⟨9, by decide⟩

theorem c4_witness :
    sig_documented (Option.some sigKillVal) ∧
    Option.some sigKillVal = Option.some sigKillVal := by
  have hd : sig_documented (Option.some sigKillVal) := by
    show 1 ≤ sigKillVal.as_raw ∧ sigKillVal.as_raw ≤ 127
    decide
  exact ⟨hd, c4_signal_translation.2 _ _ hd hd rfl⟩

/-- C5 counterexample: for |D| = 10, offset 4 and length 2^64 - 2 the
claim's remaining case applies (4 < 10 ≤ 4 + len), so the claim demands
the binary-escaped `l` tail packet — but `offset + len` overflows
`usize`: the wrapped sum is 2 < 10, the source takes the `m` branch and
`&data[4..2]` panics (in debug builds the add itself panics), so no
packet is written. -/
theorem c5_counterexample :
    4 < ([0, 1, 2, 3, 4, 5, 6, 7, 8, 9] : List Nat).length ∧
    ([0, 1, 2, 3, 4, 5, 6, 7, 8, 9] : List Nat).length ≤ 4 + (USIZE - 2) ∧
    (GdbConnection.new 1 ⟨true⟩).write_xfer_response
      [0, 1, 2, 3, 4, 5, 6, 7, 8, 9] 4 (USIZE - 2) = Option.none := by
  refine ⟨by decide, by norm_num [USIZE], ?_⟩
  have h1 : ¬ (4 > ([0, 1, 2, 3, 4, 5, 6, 7, 8, 9] : List Nat).length) := by decide
  have h2 : ¬ (4 = ([0, 1, 2, 3, 4, 5, 6, 7, 8, 9] : List Nat).length) := by decide
  have hmod : (4 + (USIZE - 2)) % USIZE = 2 := by norm_num [USIZE]
  rw [GdbConnection.write_xfer_response, if_neg h1, if_neg h2, hmod,
    if_pos (by decide), if_neg (by decide)]

/-- C5 (amended): provided `offset + len` does not overflow `usize`, the
qXfer slicing writes exactly one packet — `E01` past the end, a bare `l`
exactly at the end, a binary-escaped `m` chunk when more data remains
beyond the window, and a binary-escaped `l` chunk with the tail
otherwise; on overflow the source instead panics whenever the wrapped
sum is below `|D|` (and, in debug builds, on any overflow). -/
theorem c5_xfer_response (c : GdbConnection) (data : List Nat) (offset len : Nat)
    (hov : offset + len < USIZE) :
    (offset > data.length →
      c.write_xfer_response data offset len =
        Option.some { c with outbuf := c.outbuf ++ packetBytes (strBytes "E01") }) ∧
    (offset = data.length →
      c.write_xfer_response data offset len =
        Option.some { c with outbuf := c.outbuf ++ packetBytes (strBytes "l") }) ∧
    (offset + len < data.length →
      c.write_xfer_response data offset len =
        Option.some { c with outbuf := (c.outbuf ++
          packetBytes (strBytes "m" ++ escapeBytes ((data.drop offset).take len))) }) ∧
    (offset < data.length → data.length ≤ offset + len →
      c.write_xfer_response data offset len =
        Option.some { c with outbuf := (c.outbuf ++
          packetBytes (strBytes "l" ++ escapeBytes (data.drop offset))) }) := by
  have hmod : (offset + len) % USIZE = offset + len := Nat.mod_eq_of_lt hov
  refine ⟨?_, ?_, ?_, ?_⟩
  · intro h
    rw [GdbConnection.write_xfer_response, if_pos h, write_packet_bytes_state]
  · intro h
    rw [GdbConnection.write_xfer_response, if_neg (by omega), if_pos h,
      write_packet_bytes_state]
  · intro h
    rw [GdbConnection.write_xfer_response, if_neg (by omega), if_neg (by omega), hmod,
      if_pos h, if_pos (by omega), Nat.add_sub_cancel_left,
      GdbConnection.write_binary_packet, write_packet_bytes_state]
  · intro h1 h2
    rw [GdbConnection.write_xfer_response, if_neg (by omega), if_neg (by omega), hmod,
      if_neg (by omega), GdbConnection.write_binary_packet, write_packet_bytes_state]

theorem c5_witness :
    1 + 1 < USIZE ∧ 1 + 1 < ([10, 20, 30] : List Nat).length ∧
    (GdbConnection.new 1 ⟨true⟩).write_xfer_response [10, 20, 30] 1 1 =
      Option.some { GdbConnection.new 1 ⟨true⟩ with
        outbuf := ((GdbConnection.new 1 ⟨true⟩).outbuf ++
          packetBytes (strBytes "m" ++
            escapeBytes ((([10, 20, 30] : List Nat).drop 1).take 1))) } :=
  ⟨by norm_num [USIZE], by decide,
    (c5_xfer_response (GdbConnection.new 1 ⟨true⟩) [10, 20, 30] 1 1
      (by norm_num [USIZE])).2.2.1 (by decide)⟩

/-- C6 counterexample: the claim says failed file operations answer with a
packet of exactly the form `F-1,<code>`; the source writes the literal
`F-01,` — at errno `EPERM` the payload is `F-01,1`, not `F-1,1`. -/
theorem c6_counterexample :
    file_error_payload EPERM = strBytes "F-01,1" ∧
    file_error_payload EPERM ≠ strBytes "F-1,1" := by
  decide

/-- C6 (amended): every vFile reply invoked with a nonzero host errno
writes one packet whose payload is `F-01,<code>`, `<code>` being the
lowercase-hex protocol errno from the closed table (9999 when unknown). -/
theorem c6_file_error_reply (c : GdbConnection) (err fd : Int) (bytes : List Nat)
    (hne : err ≠ 0)
    (h1 : Option.none ∉ c.wio)
    (h2 : c.outbuf.length + (packetBytes (file_error_payload err)).length ≤
      acceptSum c.wio) :
    file_error_payload err = strBytes "F-01," ++ fmtHexI (gdb_err_of err) ∧
    (c.reply_setfs err).sent = c.sent ++ c.outbuf ++ packetBytes (file_error_payload err) ∧
    (c.reply_open fd err).sent = c.sent ++ c.outbuf ++ packetBytes (file_error_payload err) ∧
    (c.reply_pread bytes err).sent =
      c.sent ++ c.outbuf ++ packetBytes (file_error_payload err) ∧
    (c.reply_close err).sent = c.sent ++ c.outbuf ++ packetBytes (file_error_payload err) := by
  obtain ⟨e1, -, -, -, -, -⟩ := send_packet_spec c (file_error_payload err) h1 h2
  refine ⟨rfl, ?_, ?_, ?_, ?_⟩ <;>
    simpa [GdbConnection.reply_setfs, GdbConnection.reply_open,
      GdbConnection.reply_pread, GdbConnection.reply_close,
      GdbConnection.send_file_error_reply, hne] using e1

/-- A fresh stub whose socket accepts 1000 bytes without error. -/
def acceptingState : GdbConnection :=
  { GdbConnection.new 1 ⟨true⟩ with wio := [Option.some 1000] }

theorem c6_witness :
    (EPERM ≠ 0 ∧
      Option.none ∉ acceptingState.wio ∧
      acceptingState.outbuf.length + (packetBytes (file_error_payload EPERM)).length ≤
        acceptSum acceptingState.wio) ∧
    (acceptingState.reply_setfs EPERM).sent =
      acceptingState.sent ++ acceptingState.outbuf ++
        packetBytes (file_error_payload EPERM) :=
  ⟨⟨by decide, by decide, by decide⟩,
    (c6_file_error_reply acceptingState EPERM 0 [] (by decide) (by decide) (by decide)).2.1⟩

/-- C7: every outgoing packet that names a thread — stop replies, the qC
current-thread reply and thread-list entries — formats the thread id
through one common scheme, and that scheme carries the `p<pid>.` prefix
(leading byte `'p'`) exactly when the multiprocess flag is set; with the
flag clear only the bare tid is written. -/
theorem c7_multiprocess_prefix (mp : Bool) (th : GdbThreadId)
    (maybe_sig : Option Sig) (watch_addr : Nat) :
    stop_reply_payload mp th maybe_sig watch_addr =
      strBytes "T" ++ fmtHex2I (to_gdb_signum maybe_sig) ++ strBytes "thread:" ++
        threadIdSpecFmt mp th ++ strBytes ";" ++
        (if watch_addr ≠ 0 then strBytes "watch:" ++ fmtDec watch_addr ++ strBytes ";"
         else []) ∧
    qc_payload mp th = strBytes "QC" ++ threadIdSpecFmt mp th ∧
    thread_list_entry mp th = threadIdSpecFmt mp th ++ strBytes "," ∧
    ((threadIdSpecFmt mp th).head? = Option.some 112 ↔ mp = true) ∧
    threadIdSpecFmt false th = fmtHex2I th.tid := by
  refine ⟨?_, ?_, thread_list_entry_split mp th, ?_, rfl⟩
  · cases mp <;>
      simp [stop_reply_payload, threadIdSpecFmt, strBytes, List.append_assoc]
  · cases mp <;> simp [qc_payload, threadIdSpecFmt, strBytes, List.append_assoc]
  · cases mp with
    | false =>
      simp only [threadIdSpecFmt, if_neg (by simp : ¬ (false = true))]
      constructor
      · intro h
        exact absurd h (fmtHex2I_head_ne_p th.tid)
      · intro h
        cases h
    | true =>
      simp [threadIdSpecFmt, strBytes]

/-- C8 counterexample: with a nonempty thread list none of whose pids
match the pretended tgid, the payload does not begin with `'m'` — the
trailing-byte trim removes the `'m'` itself and the packet is empty. -/
theorem c8_counterexample :
    ([⟨2, 3⟩] : List GdbThreadId) ≠ [] ∧
    (thread_list_payload false 1 [⟨2, 3⟩]).head? ≠ Option.some 109 := by
  decide

/-- C8 (amended): the thread-list reply is one packet; its payload is `l`
for an empty thread list; when at least one live thread matches the tgid
it is `'m'` followed by the matching threads' ids comma-separated with
the trailing comma trimmed; when the list is nonempty but no thread
matches, the trim removes the `'m'` itself and the payload is empty. -/
theorem c8_thread_list_reply (c : GdbConnection) (threads : List GdbThreadId)
    (h1 : Option.none ∉ c.wio)
    (h2 : c.outbuf.length +
        (packetBytes
          (thread_list_payload c.multiprocess_supported_ c.tgid threads)).length ≤
      acceptSum c.wio) :
    (c.reply_get_thread_list threads).sent =
      c.sent ++ c.outbuf ++
        packetBytes (thread_list_payload c.multiprocess_supported_ c.tgid threads) ∧
    (threads = [] →
      thread_list_payload c.multiprocess_supported_ c.tgid threads = strBytes "l") ∧
    ((threads.filter fun t => decide (c.tgid = t.pid)) ≠ [] →
      thread_list_payload c.multiprocess_supported_ c.tgid threads =
        strBytes "m" ++
          commaJoin (((threads.filter fun t => decide (c.tgid = t.pid)).map
            (threadIdSpecFmt c.multiprocess_supported_)))) ∧
    (threads ≠ [] → (threads.filter fun t => decide (c.tgid = t.pid)) = [] →
      thread_list_payload c.multiprocess_supported_ c.tgid threads = []) := by
  refine ⟨?_, ?_, ?_, ?_⟩
  · obtain ⟨e1, -, -, -, -, -⟩ :=
      send_packet_spec c (thread_list_payload c.multiprocess_supported_ c.tgid threads) h1 h2
    simpa [GdbConnection.reply_get_thread_list] using e1
  · intro h
    simp [thread_list_payload, h]
  · intro hm
    have hthreads : threads ≠ [] := by
      intro h
      rw [h] at hm
      simp at hm
    rw [thread_list_payload, if_neg hthreads]
    have hentries :
        ((threads.filter fun t => decide (c.tgid = t.pid)).map
            (thread_list_entry c.multiprocess_supported_)) =
          (((threads.filter fun t => decide (c.tgid = t.pid)).map
            (threadIdSpecFmt c.multiprocess_supported_)).map fun e => e ++ strBytes ",") := by
      rw [List.map_map]
      exact List.map_congr_left fun t _ => thread_list_entry_split _ t
    rw [hentries]
    have hflat_ne :
        ((((threads.filter fun t => decide (c.tgid = t.pid)).map
            (threadIdSpecFmt c.multiprocess_supported_)).map fun e => e ++ strBytes ",").flatten)
          ≠ [] := by
      cases hf : (threads.filter fun t => decide (c.tgid = t.pid)) with
      | nil => exact absurd hf hm
      | cons a l => simp [strBytes]
    rw [List.dropLast_append_of_ne_nil _ hflat_ne,
      flatten_dropLast_commaJoin _ (by simpa using hm)]
  · intro hthreads hm
    rw [thread_list_payload, if_neg hthreads, hm]
    simp [strBytes]

theorem c8_witness :
    (Option.none ∉ acceptingState.wio ∧
      acceptingState.outbuf.length +
        (packetBytes
          (thread_list_payload acceptingState.multiprocess_supported_
            acceptingState.tgid [⟨1, 2⟩, ⟨2, 9⟩, ⟨1, 3⟩])).length ≤
        acceptSum acceptingState.wio) ∧
    (acceptingState.reply_get_thread_list [⟨1, 2⟩, ⟨2, 9⟩, ⟨1, 3⟩]).sent =
      acceptingState.sent ++ acceptingState.outbuf ++
        packetBytes
          (thread_list_payload acceptingState.multiprocess_supported_
            acceptingState.tgid [⟨1, 2⟩, ⟨2, 9⟩, ⟨1, 3⟩]) :=
  ⟨⟨by decide, by decide⟩,
    (c8_thread_list_reply acceptingState [⟨1, 2⟩, ⟨2, 9⟩, ⟨1, 3⟩]
      (by decide) (by decide)).1⟩

/-- C9: a set-register reply answers `OK` on success and an empty payload
— never a byte `'E'`, so no error code — on failure, and consumes the
current request either way. -/
theorem c9_set_reg_reply (c : GdbConnection) (ok : Bool)
    (h1 : Option.none ∉ c.wio)
    (h2 : c.outbuf.length +
        (packetBytes (if ok then strBytes "OK" else [])).length ≤ acceptSum c.wio) :
    (c.reply_set_reg ok).sent =
      c.sent ++ c.outbuf ++ packetBytes (if ok then strBytes "OK" else []) ∧
    (ok = false → ∀ b ∈ packetBytes ([] : List Nat), b ≠ 69) ∧
    (c.reply_set_reg ok).req.type_ = GdbRequestType.DREQ_NONE := by
  cases ok with
  | false =>
    obtain ⟨e1, -, e3, -, -, -⟩ := send_packet_spec c [] h1 (by simpa using h2)
    refine ⟨by simpa [GdbConnection.reply_set_reg] using e1, ?_, ?_⟩
    · intro _
      decide
    · have : (c.reply_set_reg false).req = GdbRequest.new Option.none := by
        simpa [GdbConnection.reply_set_reg] using e3
      rw [this]
      rfl
  | true =>
    obtain ⟨e1, -, e3, -, -, -⟩ := send_packet_spec c (strBytes "OK") h1 (by simpa using h2)
    refine ⟨by simpa [GdbConnection.reply_set_reg] using e1, by simp, ?_⟩
    have : (c.reply_set_reg true).req = GdbRequest.new Option.none := by
      simpa [GdbConnection.reply_set_reg] using e3
    rw [this]
    rfl

theorem c9_witness :
    (Option.none ∉ acceptingState.wio ∧
      acceptingState.outbuf.length +
        (packetBytes (if false then strBytes "OK" else [])).length ≤
        acceptSum acceptingState.wio) ∧
    (acceptingState.reply_set_reg false).sent =
      acceptingState.sent ++ acceptingState.outbuf ++
        packetBytes (if false then strBytes "OK" else []) :=
  ⟨⟨by decide, by decide⟩,
    (c9_set_reg_reply acceptingState false (by decide) (by decide)).1⟩

/-- C10: consuming a request resets it to kind `DREQ_NONE` with target
`ANY` and no stop suppression, and flushes: afterwards the outbound
buffer is empty, and either every buffered byte was delivered to the
socket with the connection-alive flag untouched, or a write error marked
the connection dead (the buffer is discarded in both cases).  The
hypothesis says the modelled socket eventually errors or accepts the
whole buffer — otherwise the real flush loop has not yet returned. -/
theorem c10_consume_request (c : GdbConnection)
    (h : Option.none ∈ c.wio ∨ c.outbuf.length ≤ acceptSum c.wio) :
    (c.consume_request).req.type_ = GdbRequestType.DREQ_NONE ∧
    (c.consume_request).req.target = GdbThreadId.ANY ∧
    (c.consume_request).req.suppress_debugger_stop = false ∧
    (c.consume_request).outbuf = [] ∧
    ((c.consume_request).connection_alive_ = c.connection_alive_ ∧
        (c.consume_request).sent = c.sent ++ c.outbuf ∨
      (c.consume_request).connection_alive_ = false) := by
  have hreq : (c.consume_request).req = GdbRequest.new Option.none := by
    simp [GdbConnection.consume_request, GdbConnection.write_flush]
  have hempty := writeFlushAux_empties c.wio c.outbuf h
  refine ⟨by rw [hreq]; rfl, by rw [hreq]; rfl, by rw [hreq]; rfl, ?_, ?_⟩
  · simpa [GdbConnection.consume_request, GdbConnection.write_flush] using hempty
  · rcases writeFlushAux_dichotomy c.wio c.outbuf hempty with ⟨ht, hs⟩ | hf
    · left
      constructor
      · simp [GdbConnection.consume_request, GdbConnection.write_flush, ht]
      · simp [GdbConnection.consume_request, GdbConnection.write_flush, hs]
    · right
      simp [GdbConnection.consume_request, GdbConnection.write_flush, hf]

theorem c10_witness :
    (Option.none ∈ ([Option.none] : List (Option Nat)) ∨
      ({ GdbConnection.new 1 ⟨true⟩ with
          wio := [Option.none], outbuf := [65] } : GdbConnection).outbuf.length ≤
        acceptSum [Option.none]) ∧
    ({ GdbConnection.new 1 ⟨true⟩ with
        wio := [Option.none], outbuf := [65] } : GdbConnection).consume_request.outbuf = [] :=
  ⟨Or.inl (by decide),
    (c10_consume_request
      { GdbConnection.new 1 ⟨true⟩ with wio := [Option.none], outbuf := [65] }
      (Or.inl (by decide))).2.2.2.1⟩
